import Mathlib

/-!
Shallow embedding of `pdt_view.py` from the Precision Drawing Tools add-on.

The module defines eight Blender operators that manipulate the camera pose of
3D viewports: absolute view rotation, four directional orbits, a roll, an
isometric snap, and a reset-to-default, plus a transient tooltip-highlight
helper.  Python floats are modelled as rationals (the claims under scrutiny
are structural, not about floating-point rounding); host-owned objects
(`RegionView3D`, screen areas, the scene property group) are modelled as
records; calls into host built-ins (`bpy.ops.view3d.view_orbit` /
`view_roll`) are modelled as emitted command values; an uncaught host-level
exception (attribute access on `None`, list index out of range) is modelled
as `Option.none`.
-/

namespace PDTView

/-- `from math import pi`: the `math.pi` double constant, as the rational
written by its decimal literal. -/
def pi : ℚ := 3.141592653589793

/-- A quaternion, mirroring `mathutils.Quaternion` in `(w, x, y, z)` order. -/
structure Quat where
  w : ℚ
  x : ℚ
  y : ℚ
  z : ℚ
deriving DecidableEq, Repr

/-- A 3-component vector (used for `rotation_coords` and `view_location`). -/
structure Vec3 where
  x : ℚ
  y : ℚ
  z : ℚ
deriving DecidableEq, Repr

/-- A 4x4 matrix as four rows of 4-tuples, mirroring the nested tuple literal
`default_view_matrix` in the source. -/
structure Mat4 where
  r0 : ℚ × ℚ × ℚ × ℚ
  r1 : ℚ × ℚ × ℚ × ℚ
  r2 : ℚ × ℚ × ℚ × ℚ
  r3 : ℚ × ℚ × ℚ × ℚ
deriving DecidableEq, Repr

/-- The camera-pose state of a 3D viewport (`RegionView3D`): the fields of the
host object that `pdt_view.py` reads or writes.  `is_orthographic_side_view`
is a host-computed read-only flag; the module only reads it. -/
structure RegionView3D where
  view_rotation : Quat
  view_distance : ℚ
  view_location : Vec3
  view_matrix : Mat4
  is_orthographic_side_view : Bool
deriving DecidableEq, Repr

/-- `view.update()`: Blender recomputes host-internal derived data.  The
host-owned view-matrix consistency semantics are outside this module (the
source treats them as given), so on the mirrored fields this is the
identity. -/
def RegionView3D.update (view : RegionView3D) : RegionView3D := view

/-- The `type` of a screen area; the source only distinguishes `"VIEW_3D"`
from everything else. -/
inductive AreaType
  | VIEW_3D
  | OTHER
deriving DecidableEq, Repr

/-- A screen area.  The source reaches the area's single 3D region both as
`area.spaces.active.region_3d` and as `area.spaces[0].region_3d`; both denote
the same host object, modelled as `region3d`.  It can be `None` on the host
side (`PDT_OT_Reset3DView` guards for that), hence the `Option`. -/
structure Area where
  type : AreaType
  region3d : Option RegionView3D
deriving DecidableEq, Repr

/-- The scene property group `scene.pdt_pg`: the scalar settings this module
reads. -/
structure PDTSceneProps where
  rotation_coords : Vec3
  vrotangle : ℚ
deriving DecidableEq, Repr

/-- `context.scene`. -/
structure Scene where
  pdt_pg : PDTSceneProps
deriving DecidableEq, Repr

/-- The slice of `bpy.context` the module touches: the scene settings and the
screen's list of areas. -/
structure Context where
  scene : Scene
  screen_areas : List Area
deriving DecidableEq, Repr

/-- The direction tag passed to `bpy.ops.view3d.view_orbit`. -/
inductive OrbitType
  | ORBITLEFT
  | ORBITRIGHT
  | ORBITUP
  | ORBITDOWN
deriving DecidableEq, Repr

/-- The tag passed to `bpy.ops.view3d.view_roll`. -/
inductive RollType
  | ANGLE
deriving DecidableEq, Repr

/-- A call into a host built-in view command, recorded with its arguments. -/
inductive HostCall
  | view_orbit (angle : ℚ) (type : OrbitType)
  | view_roll (angle : ℚ) (type : RollType)
deriving DecidableEq, Repr

/-- A record of one call to the sibling-module `debug` helper inside
`PDT_OT_Reset3DView.execute`, keeping the traced value. -/
inductive DebugEvent
  | isOrthoSideView (b : Bool)
  | viewDistanceBefore (d : ℚ)
  | viewLocationBefore (l : Vec3)
  | viewDistanceAfter (d : ℚ)
  | viewLocationAfter (l : Vec3)
  | viewMatrixBefore (m : Mat4)
  | viewMatrixAfter (m : Mat4)
deriving DecidableEq, Repr

/-- The status set an operator's `execute` returns; the module only ever
builds `{"FINISHED"}`. -/
inductive Status
  | FINISHED
deriving DecidableEq, Repr

/-- The outcome of one `execute` invocation: the mutated context, the host
built-in commands issued, the debug trace emitted, and the returned status. -/
structure ExecResult where
  ctx : Context
  calls : List HostCall
  debug : List DebugEvent
  status : Status
deriving DecidableEq, Repr

/-- `[a for a in context.screen.areas if a.type == "VIEW_3D"]`. -/
def view3DAreas (areas : List Area) : List Area :=
  areas.filter (fun a => a.type == AreaType.VIEW_3D)

/-- `areas[0].spaces.active.region_3d.view_rotation = q` after filtering for
`VIEW_3D`, resolved against the screen's own list (the filtered list aliases
the screen's area objects).  If there is no 3D area the screen is unchanged
(`if len(areas) > 0` fails); if the first 3D area's region is `None` the
attribute assignment raises, modelled as `none`. -/
def setFirstView3DRotation (q : Quat) : List Area → Option (List Area)
  | [] => some []
  | area :: rest =>
    if area.type == AreaType.VIEW_3D then
      match area.region3d with
      | some view =>
        some ({ area with region3d := some { view with view_rotation := q } } :: rest)
      | none => none
    else
      (setFirstView3DRotation q rest).map (fun l => area :: l)

/-- `PDT_OT_ViewRot.execute`: build a quaternion from the three
`rotation_coords` angles converted to radians via the external
`euler_to_quaternion` (a sibling-module collaborator, taken here as the
parameter `euler_to_quaternion`), and assign it as the first 3D viewport's
rotation. -/
def PDT_OT_ViewRot.execute (euler_to_quaternion : ℚ → ℚ → ℚ → Quat)
    (context : Context) : Option ExecResult :=
  let pg := context.scene.pdt_pg
  let roll_value := euler_to_quaternion
    (pg.rotation_coords.x * pi / 180)
    (pg.rotation_coords.y * pi / 180)
    (pg.rotation_coords.z * pi / 180)
  (setFirstView3DRotation roll_value context.screen_areas).map
    (fun areas => ⟨{ context with screen_areas := areas }, [], [], Status.FINISHED⟩)

/-- `PDT_OT_vRotL.execute`: orbit left by `vrotangle` degrees converted to
radians, via the host built-in. -/
def PDT_OT_vRotL.execute (context : Context) : ExecResult :=
  let pg := context.scene.pdt_pg
  let areas := view3DAreas context.screen_areas
  if areas.length > 0 then
    ⟨context, [HostCall.view_orbit (pg.vrotangle * pi / 180) OrbitType.ORBITLEFT],
      [], Status.FINISHED⟩
  else
    ⟨context, [], [], Status.FINISHED⟩

/-- `PDT_OT_vRotR.execute`. -/
def PDT_OT_vRotR.execute (context : Context) : ExecResult :=
  let pg := context.scene.pdt_pg
  let areas := view3DAreas context.screen_areas
  if areas.length > 0 then
    ⟨context, [HostCall.view_orbit (pg.vrotangle * pi / 180) OrbitType.ORBITRIGHT],
      [], Status.FINISHED⟩
  else
    ⟨context, [], [], Status.FINISHED⟩

/-- `PDT_OT_vRotU.execute`. -/
def PDT_OT_vRotU.execute (context : Context) : ExecResult :=
  let pg := context.scene.pdt_pg
  let areas := view3DAreas context.screen_areas
  if areas.length > 0 then
    ⟨context, [HostCall.view_orbit (pg.vrotangle * pi / 180) OrbitType.ORBITUP],
      [], Status.FINISHED⟩
  else
    ⟨context, [], [], Status.FINISHED⟩

/-- `PDT_OT_vRotD.execute`. -/
def PDT_OT_vRotD.execute (context : Context) : ExecResult :=
  let pg := context.scene.pdt_pg
  let areas := view3DAreas context.screen_areas
  if areas.length > 0 then
    ⟨context, [HostCall.view_orbit (pg.vrotangle * pi / 180) OrbitType.ORBITDOWN],
      [], Status.FINISHED⟩
  else
    ⟨context, [], [], Status.FINISHED⟩

/-- `PDT_OT_vRoll.execute`: roll by `vrotangle` degrees converted to radians,
via the host built-in. -/
def PDT_OT_vRoll.execute (context : Context) : ExecResult :=
  let pg := context.scene.pdt_pg
  let areas := view3DAreas context.screen_areas
  if areas.length > 0 then
    ⟨context, [HostCall.view_roll (pg.vrotangle * pi / 180) RollType.ANGLE],
      [], Status.FINISHED⟩
  else
    ⟨context, [], [], Status.FINISHED⟩

/-- The literal quaternion `Quaternion((0.8205, 0.4247, -0.1759, -0.3399))`
assigned by the isometric-view operator. -/
def isoQuaternion : Quat := ⟨0.8205, 0.4247, -0.1759, -0.3399⟩

/-- `PDT_OT_viso.execute`: assign the fixed isometric quaternion to the first
3D viewport's rotation. -/
def PDT_OT_viso.execute (context : Context) : Option ExecResult :=
  (setFirstView3DRotation isoQuaternion context.screen_areas).map
    (fun areas => ⟨{ context with screen_areas := areas }, [], [], Status.FINISHED⟩)

/-- `default_view_distance = 17.986562728881836`. -/
def default_view_distance : ℚ := 17.986562728881836

/-- `default_view_matrix`, the literal default view matrix. -/
def default_view_matrix : Mat4 :=
  ⟨(0.41, -0.4017, 0.8188, 0.0),
   (0.912, 0.1936, -0.3617, 0.0),
   (-0.0133, 0.8950, 0.4458, 0.0),
   (0.0, 0.0, -17.9866, 1.0)⟩

/-- The orthographic-side-view branch of the reset: assign
`default_view_distance` and location `(-0.0, -0.0, -0.0)`, then `update()`. -/
def orthoReset (view : RegionView3D) : RegionView3D :=
  ({ view with
      view_distance := default_view_distance
      view_location := ⟨-0.0, -0.0, -0.0⟩ }).update

/-- The other branch of the reset: assign `default_view_matrix`, then
`update()`. -/
def matrixReset (view : RegionView3D) : RegionView3D :=
  ({ view with view_matrix := default_view_matrix }).update

/-- The body of the reset loop for one non-`None` view, with its debug
trace, in source order. -/
def resetView (view : RegionView3D) : RegionView3D × List DebugEvent :=
  if view.is_orthographic_side_view then
    (orthoReset view,
      [DebugEvent.isOrthoSideView view.is_orthographic_side_view,
       DebugEvent.viewDistanceBefore view.view_distance,
       DebugEvent.viewLocationBefore view.view_location,
       DebugEvent.viewDistanceAfter (orthoReset view).view_distance,
       DebugEvent.viewLocationAfter (orthoReset view).view_location])
  else
    (matrixReset view,
      [DebugEvent.isOrthoSideView view.is_orthographic_side_view,
       DebugEvent.viewMatrixBefore view.view_matrix,
       DebugEvent.viewMatrixAfter (matrixReset view).view_matrix])

/-- One iteration of the reset loop: areas of other types are not visited by
the filtered generator, and a `None` region is skipped by the
`if view is not None` guard. -/
def resetArea (area : Area) : Area × List DebugEvent :=
  if area.type == AreaType.VIEW_3D then
    match area.region3d with
    | some view =>
      let r := resetView view
      ({ area with region3d := some r.1 }, r.2)
    | none => (area, [])
  else
    (area, [])

/-- `PDT_OT_Reset3DView.execute`: reset every 3D viewport to the default
camera pose. -/
def PDT_OT_Reset3DView.execute (context : Context) : ExecResult :=
  let results := context.screen_areas.map resetArea
  ⟨{ context with screen_areas := results.map Prod.fst },
   [], (results.map Prod.snd).flatten, Status.FINISHED⟩

/-- The transient-highlight UI state: the boolean flags
`PDT_PT_PanelViewControl._ui_groups` (owned by the sibling menus module) plus
a count of `tag_redraw` requests issued. -/
structure UIState where
  ui_groups : List Bool
  redraws : Nat
deriving DecidableEq, Repr

/-- A one-shot deferred callback registered with `bpy.app.timers.register`:
the `set_false` closure's captured group index and the `first_interval`
delay. -/
structure Timer where
  group : Int
  first_interval : ℚ
deriving DecidableEq, Repr

/-- Python list item assignment `l[i] = v`: a negative index counts from the
end; an index out of range raises `IndexError`, modelled as `none`. -/
def pyListSet (l : List Bool) (i : Int) (v : Bool) : Option (List Bool) :=
  let n : Int := l.length
  let j : Int := if i < 0 then i + n else i
  if 0 ≤ j ∧ j < n then some (l.set j.toNat v) else none

/-- `highlight(ui_group, redraw)`: set the group's flag to `True`, redraw,
and register the `set_false` one-shot with `first_interval=2.0`.  Returns the
new UI state and the registered timer, or `none` on an uncaught
`IndexError`. -/
def highlight (ui_group : Int) (s : UIState) : Option (UIState × Timer) :=
  match pyListSet s.ui_groups ui_group true with
  | some gs => some (⟨gs, s.redraws + 1⟩, ⟨ui_group, 2.0⟩)
  | none => none

/-- The body of the registered `set_false` closure: clear the captured
group's flag and redraw. -/
def set_false (t : Timer) (s : UIState) : Option UIState :=
  match pyListSet s.ui_groups t.group false with
  | some gs => some ⟨gs, s.redraws + 1⟩
  | none => none

/-- The `description` classmethod shared verbatim by the six operator classes
that declare one (`PDT_OT_ViewRot`, `PDT_OT_vRotL/R/U/D`, `PDT_OT_vRoll`):
when the tooltip is requested with `ui_group != -1`, call `highlight`;
otherwise do nothing.  Returns the new UI state and the timer registered, if
any (the returned `bl_description` string is a per-class constant). -/
def descriptionHook (ui_group : Int) (s : UIState) :
    Option (UIState × Option Timer) :=
  if ui_group != -1 then
    (highlight ui_group s).map (fun r => (r.1, some r.2))
  else
    some (s, none)

/-- The eight operator identifiers the module registers. -/
inductive OpId
  | viewrot
  | viewleft
  | viewright
  | viewup
  | viewdown
  | viewroll
  | viewiso
  | reset_3d_view
deriving DecidableEq, Repr

/-- `bl_idname` of each operator class. -/
def bl_idname : OpId → String
  | OpId.viewrot => "pdt.viewrot"
  | OpId.viewleft => "pdt.viewleft"
  | OpId.viewright => "pdt.viewright"
  | OpId.viewup => "pdt.viewup"
  | OpId.viewdown => "pdt.viewdown"
  | OpId.viewroll => "pdt.viewroll"
  | OpId.viewiso => "pdt.viewiso"
  | OpId.reset_3d_view => "pdt.reset_3d_view"

/-- The declaration of a `ui_group` operator property: its default and its
`HIDDEN` / `SKIP_SAVE` options. -/
structure UiGroupProp where
  default : Int
  hidden : Bool
  skip_save : Bool
deriving DecidableEq, Repr

/-- The `ui_group: bpy.props.IntProperty(...)` declaration of each operator
class, or `none` for the classes that declare no such property.
`PDT_OT_viso` and `PDT_OT_Reset3DView` declare neither a `ui_group` property
nor a `description` classmethod. -/
def ui_group_prop : OpId → Option UiGroupProp
  | OpId.viewrot => some ⟨-1, true, true⟩
  | OpId.viewleft => some ⟨-1, true, true⟩
  | OpId.viewright => some ⟨-1, true, true⟩
  | OpId.viewup => some ⟨-1, true, true⟩
  | OpId.viewdown => some ⟨-1, true, true⟩
  | OpId.viewroll => some ⟨-1, true, true⟩
  | OpId.viewiso => none
  | OpId.reset_3d_view => none

/-- A host state is well formed when every 3D area carries a present
`region_3d` object (the host guarantees valid object identity at call
time). -/
def hostValid (context : Context) : Bool :=
  context.screen_areas.all
    (fun a => a.type != AreaType.VIEW_3D || a.region3d.isSome)

/-- Projection of the first 3D viewport's rotation, used to state what the
rotation-assigning operators achieve. -/
def firstView3DRotation (areas : List Area) : Option Quat :=
  match view3DAreas areas with
  | [] => none
  | a :: _ => a.region3d.map (fun v => v.view_rotation)

/-- A sample identity-like matrix for concrete test states. -/
def mat0 : Mat4 := ⟨(1, 0, 0, 0), (0, 1, 0, 0), (0, 0, 1, 0), (0, 0, 0, 1)⟩

/-- A sample viewport state whose host flag marks an orthographic side
view. -/
def orthoView : RegionView3D := ⟨⟨1, 0, 0, 0⟩, 5, ⟨1, 2, 3⟩, mat0, true⟩

/-- A sample viewport state that is not an orthographic side view. -/
def perspView : RegionView3D := ⟨⟨1, 0, 0, 0⟩, 5, ⟨1, 2, 3⟩, mat0, false⟩

/-- A sample scene: rotation angles 30, 45, 60 degrees and delta angle 10
degrees. -/
def sampleScene : Scene := ⟨⟨⟨30, 45, 60⟩, 10⟩⟩

/-- A sample screen with a non-3D area followed by one 3D viewport. -/
def sampleCtx : Context :=
  ⟨sampleScene, [⟨AreaType.OTHER, none⟩, ⟨AreaType.VIEW_3D, some orthoView⟩]⟩

/-- A sample screen containing no 3D viewport. -/
def emptyCtx : Context := ⟨sampleScene, [⟨AreaType.OTHER, none⟩]⟩

/-- A sample stand-in for the external `euler_to_quaternion` collaborator
(its algorithm is outside this module). -/
def e2qSample : ℚ → ℚ → ℚ → Quat := fun a b c => ⟨a, b, c, 0⟩

lemma orthoReset_idem (v : RegionView3D) :
    orthoReset (orthoReset v) = orthoReset v := rfl

lemma matrixReset_idem (v : RegionView3D) :
    matrixReset (matrixReset v) = matrixReset v := rfl

lemma resetArea_fst_ortho (v : RegionView3D)
    (hb : v.is_orthographic_side_view = true) :
    (resetArea ⟨AreaType.VIEW_3D, some v⟩).1 =
      ⟨AreaType.VIEW_3D, some (orthoReset v)⟩ := by
  simp [resetArea, resetView, hb]

lemma resetArea_fst_matrix (v : RegionView3D)
    (hb : v.is_orthographic_side_view = false) :
    (resetArea ⟨AreaType.VIEW_3D, some v⟩).1 =
      ⟨AreaType.VIEW_3D, some (matrixReset v)⟩ := by
  simp [resetArea, resetView, hb]

lemma resetArea_fst_idem (a : Area) :
    (resetArea (resetArea a).1).1 = (resetArea a).1 := by
  rcases a with ⟨t, r⟩
  cases t
  · cases r with
    | none => rfl
    | some v =>
      cases hb : v.is_orthographic_side_view
      · rw [resetArea_fst_matrix v hb,
          resetArea_fst_matrix (matrixReset v) hb, matrixReset_idem]
      · rw [resetArea_fst_ortho v hb,
          resetArea_fst_ortho (orthoReset v) hb, orthoReset_idem]
  · rfl

lemma reset_screen_areas (context : Context) :
    (PDT_OT_Reset3DView.execute context).ctx.screen_areas =
      context.screen_areas.map (fun a => (resetArea a).1) := by
  simp [PDT_OT_Reset3DView.execute]

/-- C1: the reset operator is idempotent — running `pdt.reset_3d_view` twice
from any starting context leaves every viewport (indeed the whole mutated
context) exactly as one run does. -/
theorem reset_idempotent (context : Context) :
    (PDT_OT_Reset3DView.execute (PDT_OT_Reset3DView.execute context).ctx).ctx =
      (PDT_OT_Reset3DView.execute context).ctx := by
  rcases context with ⟨scene, areas⟩
  simp only [PDT_OT_Reset3DView.execute, List.map_map]
  refine congrArg (Context.mk scene) ?_
  exact List.map_congr_left (fun a _ => resetArea_fst_idem a)

/-- C2 counterexample: it is false that all eight operators declare the
`ui_group` property — `pdt.viewiso` declares none. -/
theorem ui_group_on_all_eight_refuted :
    ¬ (∀ op : OpId, ∃ p : UiGroupProp, ui_group_prop op = some p ∧
        p.default = -1 ∧ p.hidden = true ∧ p.skip_save = true) := by
  intro h
  obtain ⟨p, hp, -⟩ := h OpId.viewiso
  have hnone : (none : Option UiGroupProp) = some p := hp
  exact Option.noConfusion hnone

/-- C2 amended: exactly the six rotation/orbit/roll operators declare the
optional `ui_group` integer property, with default sentinel `-1` and options
`HIDDEN` and `SKIP_SAVE`; `pdt.viewiso` and `pdt.reset_3d_view` declare no
such property. -/
theorem ui_group_prop_spec (op : OpId) :
    ui_group_prop op =
      if op = OpId.viewiso ∨ op = OpId.reset_3d_view then none
      else some ⟨-1, true, true⟩ := by
  cases op <;> rfl

lemma neg_zero_rat : (-0.0 : ℚ) = 0 := by norm_num

/-- C4: per-viewport frame effect of the reset — a 3D area whose view is an
orthographic side view gets exactly its distance and location overwritten
(with `17.986562728881836` and `(0, 0, 0)`), all other camera fields
untouched; any other 3D area gets exactly its view matrix overwritten with
the literal default matrix. -/
theorem reset_frame_effect (context : Context) (i : Nat) (a : Area)
    (v : RegionView3D)
    (ha : context.screen_areas[i]? = some a)
    (ht : a.type = AreaType.VIEW_3D)
    (hv : a.region3d = some v) :
    (PDT_OT_Reset3DView.execute context).ctx.screen_areas[i]? =
      some { a with region3d := some (
        if v.is_orthographic_side_view then
          { v with view_distance := (17.986562728881836 : ℚ),
                   view_location := ⟨0, 0, 0⟩ }
        else
          { v with view_matrix := default_view_matrix }) } := by
  rw [reset_screen_areas, List.getElem?_map, ha]
  cases hb : v.is_orthographic_side_view <;>
    simp [resetArea, resetView, orthoReset, matrixReset, RegionView3D.update,
      ht, hv, hb, default_view_distance, neg_zero_rat]

/-- C4 witness: the reset applied to the sample screen resets the
orthographic side-view viewport's distance and location only. -/
theorem reset_frame_effect_witness :
    (PDT_OT_Reset3DView.execute sampleCtx).ctx.screen_areas[1]? =
      some ⟨AreaType.VIEW_3D, some
        { orthoView with view_distance := (17.986562728881836 : ℚ),
                         view_location := ⟨0, 0, 0⟩ }⟩ :=
  reset_frame_effect sampleCtx 1 ⟨AreaType.VIEW_3D, some orthoView⟩ orthoView
    rfl rfl rfl

/-- C5: the reset's branch selection is exactly the viewport's
`is_orthographic_side_view` flag — the distance/location branch runs (its
debug trace appears and the result is `orthoReset`) precisely when the flag
is true, and the view-matrix branch precisely when it is false. -/
theorem reset_branch_selection (view : RegionView3D) :
    ((∃ d, DebugEvent.viewDistanceBefore d ∈ (resetView view).2) ↔
        view.is_orthographic_side_view = true) ∧
    ((∃ m, DebugEvent.viewMatrixBefore m ∈ (resetView view).2) ↔
        view.is_orthographic_side_view = false) ∧
    (resetView view).1 =
      (if view.is_orthographic_side_view then orthoReset view
       else matrixReset view) := by
  cases hb : view.is_orthographic_side_view <;> simp [resetView, hb]

/-- C5 witness: on the sample orthographic view the distance/location branch
runs, and on the sample non-orthographic view the matrix branch runs. -/
theorem reset_branch_selection_witness :
    (∃ d, DebugEvent.viewDistanceBefore d ∈ (resetView orthoView).2) ∧
    (∃ m, DebugEvent.viewMatrixBefore m ∈ (resetView perspView).2) :=
  ⟨(reset_branch_selection orthoView).1.mpr rfl,
   (reset_branch_selection perspView).2.1.mpr rfl⟩

lemma setFirstView3DRotation_total (q : Quat) (areas : List Area)
    (h : areas.all
      (fun a => a.type != AreaType.VIEW_3D || a.region3d.isSome) = true) :
    ∃ l, setFirstView3DRotation q areas = some l := by
  induction areas with
  | nil => exact ⟨[], rfl⟩
  | cons a rest ih =>
    simp only [List.all_cons, Bool.and_eq_true] at h
    cases hpa : a.type == AreaType.VIEW_3D
    · obtain ⟨l, hl⟩ := ih h.2
      exact ⟨a :: l, by simp [setFirstView3DRotation, hpa, hl]⟩
    · have hsome : a.region3d.isSome = true := by
        have h1 := h.1
        simp only [bne, hpa, Bool.not_true, Bool.false_or] at h1
        exact h1
      obtain ⟨v, hv⟩ := Option.isSome_iff_exists.mp hsome
      exact ⟨{ a with region3d := some { v with view_rotation := q } } :: rest,
        by simp [setFirstView3DRotation, hpa, hv]⟩

lemma setFirstView3DRotation_no3D (q : Quat) (areas : List Area)
    (h : view3DAreas areas = []) :
    setFirstView3DRotation q areas = some areas := by
  induction areas with
  | nil => rfl
  | cons a rest ih =>
    cases hpa : a.type == AreaType.VIEW_3D
    · have hrest : view3DAreas rest = [] := by
        simpa [view3DAreas, List.filter_cons, hpa] using h
      simp [setFirstView3DRotation, hpa, ih hrest]
    · exfalso
      simp [view3DAreas, List.filter_cons, hpa] at h

lemma resetArea_no3D (a : Area)
    (ha : (a.type == AreaType.VIEW_3D) = false) : resetArea a = (a, []) := by
  simp [resetArea, ha]

lemma flatten_map_nil {α : Type} (l : List α) :
    (l.map (fun _ => ([] : List DebugEvent))).flatten = [] := by
  induction l with
  | nil => rfl
  | cons b rest ih => simp [ih]

lemma reset_no3D (context : Context)
    (h : view3DAreas context.screen_areas = []) :
    PDT_OT_Reset3DView.execute context = ⟨context, [], [], Status.FINISHED⟩ := by
  rcases context with ⟨scene, areas⟩
  have hall : ∀ a ∈ areas, (a.type == AreaType.VIEW_3D) = false := by
    intro a ha
    by_contra hcon
    have htrue : (a.type == AreaType.VIEW_3D) = true := by
      cases hv : a.type == AreaType.VIEW_3D
      · exact absurd hv hcon
      · rfl
    have hmem : a ∈ view3DAreas areas := List.mem_filter.mpr ⟨ha, htrue⟩
    rw [show view3DAreas areas = [] from h] at hmem
    exact List.not_mem_nil a hmem
  have hmap : List.map resetArea areas =
      List.map (fun a => (a, ([] : List DebugEvent))) areas :=
    List.map_congr_left (fun a ha => resetArea_no3D a (hall a ha))
  simp only [PDT_OT_Reset3DView.execute]
  rw [hmap]
  have h1 : List.map Prod.fst
      (List.map (fun a => (a, ([] : List DebugEvent))) areas) = areas := by
    rw [List.map_map]
    exact List.map_id areas
  have h2 : (List.map Prod.snd
      (List.map (fun a => (a, ([] : List DebugEvent))) areas)).flatten =
        ([] : List DebugEvent) := by
    rw [List.map_map]
    exact flatten_map_nil areas
  rw [h1, h2]

/-- C3: every operator's `execute` returns the status set `{"FINISHED"}`
(for the two operators that dereference `region_3d` without a `None` guard,
under the host guarantee that 3D areas carry a present region object), and
when the screen has no 3D viewport every operator leaves the context
untouched, issues no host command, and still returns `{"FINISHED"}`. -/
theorem execute_always_finished (euler_to_quaternion : ℚ → ℚ → ℚ → Quat)
    (context : Context) (hval : hostValid context = true) :
    (∃ r, PDT_OT_ViewRot.execute euler_to_quaternion context = some r ∧
        r.status = Status.FINISHED) ∧
    (PDT_OT_vRotL.execute context).status = Status.FINISHED ∧
    (PDT_OT_vRotR.execute context).status = Status.FINISHED ∧
    (PDT_OT_vRotU.execute context).status = Status.FINISHED ∧
    (PDT_OT_vRotD.execute context).status = Status.FINISHED ∧
    (PDT_OT_vRoll.execute context).status = Status.FINISHED ∧
    (∃ r, PDT_OT_viso.execute context = some r ∧
        r.status = Status.FINISHED) ∧
    (PDT_OT_Reset3DView.execute context).status = Status.FINISHED ∧
    (view3DAreas context.screen_areas = [] →
      PDT_OT_ViewRot.execute euler_to_quaternion context =
          some ⟨context, [], [], Status.FINISHED⟩ ∧
      PDT_OT_vRotL.execute context = ⟨context, [], [], Status.FINISHED⟩ ∧
      PDT_OT_vRotR.execute context = ⟨context, [], [], Status.FINISHED⟩ ∧
      PDT_OT_vRotU.execute context = ⟨context, [], [], Status.FINISHED⟩ ∧
      PDT_OT_vRotD.execute context = ⟨context, [], [], Status.FINISHED⟩ ∧
      PDT_OT_vRoll.execute context = ⟨context, [], [], Status.FINISHED⟩ ∧
      PDT_OT_viso.execute context = some ⟨context, [], [], Status.FINISHED⟩ ∧
      PDT_OT_Reset3DView.execute context =
          ⟨context, [], [], Status.FINISHED⟩) := by
  have hvl : context.screen_areas.all
      (fun a => a.type != AreaType.VIEW_3D || a.region3d.isSome) = true := hval
  refine ⟨?_, ?_, ?_, ?_, ?_, ?_, ?_, rfl, ?_⟩
  · obtain ⟨l, hl⟩ := setFirstView3DRotation_total
      (euler_to_quaternion
        (context.scene.pdt_pg.rotation_coords.x * pi / 180)
        (context.scene.pdt_pg.rotation_coords.y * pi / 180)
        (context.scene.pdt_pg.rotation_coords.z * pi / 180))
      context.screen_areas hvl
    refine ⟨⟨⟨context.scene, l⟩, [], [], Status.FINISHED⟩, ?_, rfl⟩
    simp [PDT_OT_ViewRot.execute, hl]
  · simp only [PDT_OT_vRotL.execute]
  · simp only [PDT_OT_vRotR.execute]
  · simp only [PDT_OT_vRotU.execute]
  · simp only [PDT_OT_vRotD.execute]
  · simp only [PDT_OT_vRoll.execute]
  · obtain ⟨l, hl⟩ := setFirstView3DRotation_total isoQuaternion
      context.screen_areas hvl
    refine ⟨⟨⟨context.scene, l⟩, [], [], Status.FINISHED⟩, ?_, rfl⟩
    simp [PDT_OT_viso.execute, hl]
  · intro h0
    have hno : ∀ q, setFirstView3DRotation q context.screen_areas =
        some context.screen_areas :=
      fun q => setFirstView3DRotation_no3D q context.screen_areas h0
    refine ⟨?_, ?_, ?_, ?_, ?_, ?_, ?_, reset_no3D context h0⟩
    · simp [PDT_OT_ViewRot.execute, hno]
    · simp [PDT_OT_vRotL.execute, h0]
    · simp [PDT_OT_vRotR.execute, h0]
    · simp [PDT_OT_vRotU.execute, h0]
    · simp [PDT_OT_vRotD.execute, h0]
    · simp [PDT_OT_vRoll.execute, h0]
    · simp [PDT_OT_viso.execute, hno]

/-- C3 witness: on a screen with no 3D viewport (one `OTHER` area) the
operators no-op and return the finished status. -/
theorem execute_always_finished_witness :
    hostValid emptyCtx = true ∧
    (∃ r, PDT_OT_ViewRot.execute e2qSample emptyCtx = some r ∧
        r.status = Status.FINISHED) ∧
    PDT_OT_Reset3DView.execute emptyCtx =
        ⟨emptyCtx, [], [], Status.FINISHED⟩ :=
  ⟨rfl, (execute_always_finished e2qSample emptyCtx rfl).1,
    ((execute_always_finished e2qSample emptyCtx rfl).2.2.2.2.2.2.2.2
      rfl).2.2.2.2.2.2.2⟩

lemma setFirstView3DRotation_rotation (q : Quat) :
    ∀ (areas l : List Area), setFirstView3DRotation q areas = some l →
      view3DAreas areas ≠ [] → firstView3DRotation l = some q := by
  intro areas
  induction areas with
  | nil => intro l h hne; exact absurd rfl hne
  | cons a rest ih =>
    intro l h hne
    cases hpa : a.type == AreaType.VIEW_3D
    · simp only [setFirstView3DRotation, hpa, Bool.false_eq_true,
        if_false] at h
      cases hrec : setFirstView3DRotation q rest with
      | none => rw [hrec] at h; exact Option.noConfusion h
      | some l' =>
        rw [hrec] at h
        simp only [Option.map_some', Option.some.injEq] at h
        have hne' : view3DAreas rest ≠ [] := by
          simpa [view3DAreas, List.filter_cons, hpa] using hne
        have hfirst := ih l' hrec hne'
        rw [← h]
        simpa [firstView3DRotation, view3DAreas, List.filter_cons, hpa]
          using hfirst
    · cases hr : a.region3d with
      | none =>
        simp only [setFirstView3DRotation, hpa, if_true, hr] at h
        exact Option.noConfusion h
      | some v =>
        simp only [setFirstView3DRotation, hpa, if_true, hr,
          Option.some.injEq] at h
        rw [← h]
        simp [firstView3DRotation, view3DAreas, List.filter_cons, hpa]

/-- C6: for every value of the three scene rotation angles, `pdt.viewrot`
(when a 3D viewport exists) assigns to the first 3D viewport's rotation
exactly the quaternion `euler_to_quaternion` returns on the three angles each
multiplied by `pi / 180`. -/
theorem viewrot_rotation_assignment (euler_to_quaternion : ℚ → ℚ → ℚ → Quat)
    (context : Context) (r : ExecResult)
    (h : PDT_OT_ViewRot.execute euler_to_quaternion context = some r)
    (hne : view3DAreas context.screen_areas ≠ []) :
    firstView3DRotation r.ctx.screen_areas =
      some (euler_to_quaternion
        (context.scene.pdt_pg.rotation_coords.x * pi / 180)
        (context.scene.pdt_pg.rotation_coords.y * pi / 180)
        (context.scene.pdt_pg.rotation_coords.z * pi / 180)) := by
  simp only [PDT_OT_ViewRot.execute] at h
  obtain ⟨l, hl, hfr⟩ := Option.map_eq_some'.mp h
  rw [← hfr]
  exact setFirstView3DRotation_rotation _ context.screen_areas l hl hne

/-- C6 witness: on the sample screen with angles 30, 45, 60 the first 3D
viewport ends up with exactly the converted-angle quaternion. -/
theorem viewrot_rotation_assignment_witness :
    firstView3DRotation
      [Area.mk AreaType.OTHER none,
       Area.mk AreaType.VIEW_3D (some { orthoView with
         view_rotation := e2qSample (30 * pi / 180) (45 * pi / 180)
           (60 * pi / 180) })] =
      some (e2qSample (30 * pi / 180) (45 * pi / 180) (60 * pi / 180)) :=
  viewrot_rotation_assignment e2qSample sampleCtx
    ⟨⟨sampleScene,
      [Area.mk AreaType.OTHER none,
       Area.mk AreaType.VIEW_3D (some { orthoView with
         view_rotation := e2qSample (30 * pi / 180) (45 * pi / 180)
           (60 * pi / 180) })]⟩, [], [], Status.FINISHED⟩
    rfl (by decide)

/-- C7: each orbit operator and the roll operator, on a screen with a 3D
viewport, issues exactly one host built-in call carrying the direction tag
matching its identifier and the delta angle `vrotangle * pi / 180` with no
sign inversion. -/
theorem orbit_roll_direction_tags (context : Context)
    (hne : view3DAreas context.screen_areas ≠ []) :
    bl_idname OpId.viewleft = "pdt.viewleft" ∧
    (PDT_OT_vRotL.execute context).calls =
      [HostCall.view_orbit (context.scene.pdt_pg.vrotangle * pi / 180)
        OrbitType.ORBITLEFT] ∧
    bl_idname OpId.viewright = "pdt.viewright" ∧
    (PDT_OT_vRotR.execute context).calls =
      [HostCall.view_orbit (context.scene.pdt_pg.vrotangle * pi / 180)
        OrbitType.ORBITRIGHT] ∧
    bl_idname OpId.viewup = "pdt.viewup" ∧
    (PDT_OT_vRotU.execute context).calls =
      [HostCall.view_orbit (context.scene.pdt_pg.vrotangle * pi / 180)
        OrbitType.ORBITUP] ∧
    bl_idname OpId.viewdown = "pdt.viewdown" ∧
    (PDT_OT_vRotD.execute context).calls =
      [HostCall.view_orbit (context.scene.pdt_pg.vrotangle * pi / 180)
        OrbitType.ORBITDOWN] ∧
    bl_idname OpId.viewroll = "pdt.viewroll" ∧
    (PDT_OT_vRoll.execute context).calls =
      [HostCall.view_roll (context.scene.pdt_pg.vrotangle * pi / 180)
        RollType.ANGLE] := by
  have hpos : 0 < (view3DAreas context.screen_areas).length :=
    List.length_pos.mpr hne
  refine ⟨rfl, ?_, rfl, ?_, rfl, ?_, rfl, ?_, rfl, ?_⟩ <;>
    simp [PDT_OT_vRotL.execute, PDT_OT_vRotR.execute, PDT_OT_vRotU.execute,
      PDT_OT_vRotD.execute, PDT_OT_vRoll.execute, hpos]

/-- C7 witness: on the sample screen with delta angle 10 degrees the orbit
and roll calls carry the expected tags and converted angle. -/
theorem orbit_roll_direction_tags_witness :
    (PDT_OT_vRotL.execute sampleCtx).calls =
      [HostCall.view_orbit (10 * pi / 180) OrbitType.ORBITLEFT] ∧
    (PDT_OT_vRoll.execute sampleCtx).calls =
      [HostCall.view_roll (10 * pi / 180) RollType.ANGLE] :=
  ⟨(orbit_roll_direction_tags sampleCtx (by decide)).2.1,
   (orbit_roll_direction_tags sampleCtx (by decide)).2.2.2.2.2.2.2.2.2⟩

/-- C9: no operator mutates the shared scene settings it reads — after every
`execute`, the property group (its `rotation_coords` and `vrotangle`) is
exactly what it was before. -/
theorem settings_read_only (euler_to_quaternion : ℚ → ℚ → ℚ → Quat)
    (context : Context) :
    (∀ r, PDT_OT_ViewRot.execute euler_to_quaternion context = some r →
        r.ctx.scene.pdt_pg = context.scene.pdt_pg) ∧
    (PDT_OT_vRotL.execute context).ctx.scene.pdt_pg =
        context.scene.pdt_pg ∧
    (PDT_OT_vRotR.execute context).ctx.scene.pdt_pg =
        context.scene.pdt_pg ∧
    (PDT_OT_vRotU.execute context).ctx.scene.pdt_pg =
        context.scene.pdt_pg ∧
    (PDT_OT_vRotD.execute context).ctx.scene.pdt_pg =
        context.scene.pdt_pg ∧
    (PDT_OT_vRoll.execute context).ctx.scene.pdt_pg =
        context.scene.pdt_pg ∧
    (∀ r, PDT_OT_viso.execute context = some r →
        r.ctx.scene.pdt_pg = context.scene.pdt_pg) ∧
    (PDT_OT_Reset3DView.execute context).ctx.scene.pdt_pg =
        context.scene.pdt_pg := by
  refine ⟨?_, ?_, ?_, ?_, ?_, ?_, ?_, rfl⟩
  · intro r h
    simp only [PDT_OT_ViewRot.execute] at h
    obtain ⟨l, -, hfr⟩ := Option.map_eq_some'.mp h
    rw [← hfr]
  · simp only [PDT_OT_vRotL.execute]; split <;> rfl
  · simp only [PDT_OT_vRotR.execute]; split <;> rfl
  · simp only [PDT_OT_vRotU.execute]; split <;> rfl
  · simp only [PDT_OT_vRotD.execute]; split <;> rfl
  · simp only [PDT_OT_vRoll.execute]; split <;> rfl
  · intro r h
    simp only [PDT_OT_viso.execute] at h
    obtain ⟨l, -, hfr⟩ := Option.map_eq_some'.mp h
    rw [← hfr]

/-- C9 witness: on the sample screen, the orbit-left and reset operators
leave the scene settings untouched, and so does `pdt.viewrot` on its
concrete result. -/
theorem settings_read_only_witness :
    (PDT_OT_vRotL.execute sampleCtx).ctx.scene.pdt_pg =
        sampleCtx.scene.pdt_pg ∧
    (PDT_OT_Reset3DView.execute sampleCtx).ctx.scene.pdt_pg =
        sampleCtx.scene.pdt_pg ∧
    (⟨⟨sampleScene,
      [Area.mk AreaType.OTHER none,
       Area.mk AreaType.VIEW_3D (some { orthoView with
         view_rotation := e2qSample (30 * pi / 180) (45 * pi / 180)
           (60 * pi / 180) })]⟩, [], [],
      Status.FINISHED⟩ : ExecResult).ctx.scene.pdt_pg =
        sampleCtx.scene.pdt_pg :=
  ⟨(settings_read_only e2qSample sampleCtx).2.1,
   (settings_read_only e2qSample sampleCtx).2.2.2.2.2.2.2,
   (settings_read_only e2qSample sampleCtx).1
     ⟨⟨sampleScene,
       [Area.mk AreaType.OTHER none,
        Area.mk AreaType.VIEW_3D (some { orthoView with
          view_rotation := e2qSample (30 * pi / 180) (45 * pi / 180)
            (60 * pi / 180) })]⟩, [], [], Status.FINISHED⟩ rfl⟩

lemma pyListSet_nonneg (l : List Bool) (i : Int) (v : Bool)
    (h0 : 0 ≤ i) (hlt : i < (l.length : Int)) :
    pyListSet l i v = some (l.set i.toNat v) := by
  simp only [pyListSet]
  rw [if_neg (not_lt.mpr h0), if_pos ⟨h0, hlt⟩]

lemma pyListSet_neg (l : List Bool) (i : Int) (v : Bool)
    (hneg : i < 0) (h0 : 0 ≤ i + (l.length : Int)) :
    pyListSet l i v = some (l.set (i + (l.length : Int)).toNat v) := by
  simp only [pyListSet]
  rw [if_pos hneg, if_pos ⟨h0, by omega⟩]

lemma pyListSet_oob (l : List Bool) (i : Int) (v : Bool)
    (hge : (l.length : Int) ≤ i) : pyListSet l i v = none := by
  simp only [pyListSet]
  have hnn : (0 : Int) ≤ (l.length : Int) := by positivity
  rw [if_neg (by omega : ¬ i < 0), if_neg (by omega)]

/-- C8: a tooltip request with a valid `ui_group` index other than the `-1`
sentinel immediately sets the group's highlight flag true with one redraw and
registers the one-shot `set_false` timer with the fixed `2.0`-second delay;
firing that callback sets the flag back to false with one more redraw, so
after it fires the flag is not left true and the true window is exactly the
one registered delay. -/
theorem highlight_window (g : Int) (s : UIState)
    (hg : g ≠ -1) (h0 : 0 ≤ g) (hlt : g < (s.ui_groups.length : Int))
    (_hfalse : s.ui_groups[g.toNat]? = some false) :
    descriptionHook g s =
      some (⟨s.ui_groups.set g.toNat true, s.redraws + 1⟩,
        some ⟨g, 2.0⟩) ∧
    (s.ui_groups.set g.toNat true)[g.toNat]? = some true ∧
    set_false ⟨g, 2.0⟩ ⟨s.ui_groups.set g.toNat true, s.redraws + 1⟩ =
      some ⟨(s.ui_groups.set g.toNat true).set g.toNat false,
        s.redraws + 2⟩ ∧
    ((s.ui_groups.set g.toNat true).set g.toNat false)[g.toNat]? =
      some false := by
  have hnat : g.toNat < s.ui_groups.length := by omega
  have hset1 := pyListSet_nonneg s.ui_groups g true h0 hlt
  have hlen2 : g < ((s.ui_groups.set g.toNat true).length : Int) := by
    simpa using hlt
  have hset2 := pyListSet_nonneg (s.ui_groups.set g.toNat true) g false
    h0 hlen2
  refine ⟨?_, ?_, ?_, ?_⟩
  · simp [descriptionHook, highlight, bne_iff_ne, hg, hset1]
  · exact List.getElem?_set_self hnat
  · simp [set_false, hset2]
  · exact List.getElem?_set_self (by simpa using hnat)

/-- C8 witness: requesting the tooltip with group index 1 on three cleared
flags highlights exactly that flag, and the registered 2.0-second callback
clears it again. -/
theorem highlight_window_witness :
    descriptionHook 1 ⟨[false, false, false], 0⟩ =
      some (⟨[false, true, false], 1⟩, some ⟨1, 2.0⟩) ∧
    ([false, true, false] : List Bool)[(1 : Int).toNat]? = some true ∧
    set_false ⟨1, 2.0⟩ ⟨[false, true, false], 1⟩ =
      some ⟨[false, false, false], 2⟩ ∧
    ([false, false, false] : List Bool)[(1 : Int).toNat]? = some false :=
  highlight_window 1 ⟨[false, false, false], 0⟩ (by decide) (by decide)
    (by decide) (by decide)

/-- C10: the highlight path checks only `ui_group != -1` and indexes the flag
list with Python semantics — any other negative index silently sets a flag
counted from the end of the list, and an index at or beyond the list length
raises an uncaught `IndexError` (modelled as `none`). -/
theorem highlight_unchecked_indexing (g : Int) (s : UIState) :
    (g = -1 → descriptionHook g s = some (s, none)) ∧
    (g ≠ -1 → descriptionHook g s =
      (highlight g s).map (fun r => (r.1, some r.2))) ∧
    (2 ≤ s.ui_groups.length →
      highlight (-2) s =
        some (⟨s.ui_groups.set (s.ui_groups.length - 2) true,
          s.redraws + 1⟩, ⟨-2, 2.0⟩)) ∧
    ((s.ui_groups.length : Int) ≤ g → highlight g s = none) := by
  refine ⟨?_, ?_, ?_, ?_⟩
  · intro h
    subst h
    simp [descriptionHook]
  · intro h
    simp [descriptionHook, bne_iff_ne, h]
  · intro hlen
    have hset := pyListSet_neg s.ui_groups (-2) true (by norm_num)
      (by omega)
    have hidx : ((-2 : Int) + (s.ui_groups.length : Int)).toNat =
        s.ui_groups.length - 2 := by omega
    rw [hidx] at hset
    simp [highlight, hset]
  · intro hge
    have hset := pyListSet_oob s.ui_groups g true hge
    simp [highlight, hset]

/-- C10 witness: with three flags, index `-1` is the guarded no-op, index
`-2` silently sets the middle flag (counted from the end), and index 3 is an
uncaught `IndexError`. -/
theorem highlight_unchecked_indexing_witness :
    descriptionHook (-1) ⟨[false, false, false], 0⟩ =
      some (⟨[false, false, false], 0⟩, none) ∧
    highlight (-2) ⟨[false, false, false], 0⟩ =
      some (⟨[false, true, false], 1⟩, ⟨-2, 2.0⟩) ∧
    highlight 3 ⟨[false, false, false], 0⟩ = none :=
  ⟨(highlight_unchecked_indexing (-1) ⟨[false, false, false], 0⟩).1 rfl,
   (highlight_unchecked_indexing (-2) ⟨[false, false, false], 0⟩).2.2.1
     (by decide),
   (highlight_unchecked_indexing 3 ⟨[false, false, false], 0⟩).2.2.2
     (by decide)⟩

end PDTView
